import Mathlib

/-!
Verification of the felpower-software dashboard: a shallow embedding of
`inc/smartmeter-proxy.php` (the credential relay) and `js/monitor.js`
(the departure/weather/metering poller), with theorems checking the
specification's claims against these embeddings.

Modelling conventions:
* PHP/JS numbers are modelled as `ℚ` (ideal arithmetic, no floating point).
* Absent object fields / `null` are `Option.none`; PHP `??` and JS `||`
  become explicit matches on `Option`.
* Network effects are oracles: the upstream HTTP response is an input of
  the embedded function (`Except String UpstreamResp` models the curl
  error vs. response outcome); `json_decode` of the body is modelled by
  the `json : Option UpstreamData` component of the response.
* `echo json_encode(...)` plus `http_response_code` are modelled by the
  returned `RelayResult` record.
-/

namespace SmartMeterProxy

/-- PHP `empty($s)` on a string: true for `""` and `"0"` (PHP's falsy strings). -/
def phpEmpty (s : String) : Bool :=
  s == "" || s == "0"

/-- Floor of a rational as an integer, computed from the reduced fraction. -/
def ratFloor (q : ℚ) : ℤ :=
  q.num.fdiv q.den

/-- PHP `round($x)` (half away from zero) on an ideal rational. -/
def phpRoundInt (x : ℚ) : ℤ :=
  if 0 ≤ x then ratFloor (x + 1/2) else -ratFloor (-x + 1/2)

/-- PHP `round($x, 2)`: round to two decimal places, half away from zero. -/
def phpRound2 (x : ℚ) : ℚ :=
  (phpRoundInt (x * 100) : ℚ) / 100

/-! ### Dates

`DateTime`/`modify` arithmetic from `getConsumption` (lines 84-110 of
`smartmeter-proxy.php`), on a proleptic Gregorian calendar. -/

/-- A calendar date as PHP's `DateTime` holds it (year, month, day). -/
structure Date where
  year : ℕ
  month : ℕ
  day : ℕ
deriving DecidableEq, Repr

/-- Gregorian leap-year test. -/
def isLeap (y : ℕ) : Bool :=
  (y % 4 == 0 && y % 100 != 0) || y % 400 == 0

/-- 1 on a leap year, 0 otherwise. -/
def leapBit (y : ℕ) : ℕ :=
  if isLeap y then 1 else 0

/-- Days in a month of a given year. -/
def daysInMonth (y m : ℕ) : ℕ :=
  match m with
  | 1 => 31
  | 2 => 28 + leapBit y
  | 3 => 31
  | 4 => 30
  | 5 => 31
  | 6 => 30
  | 7 => 31
  | 8 => 31
  | 9 => 30
  | 10 => 31
  | 11 => 30
  | 12 => 31
  | _ => 0

/-- Days of year `y` strictly before month `m`. -/
def daysBeforeMonth (y m : ℕ) : ℕ :=
  match m with
  | 1 => 0
  | 2 => 31
  | 3 => 59 + leapBit y
  | 4 => 90 + leapBit y
  | 5 => 120 + leapBit y
  | 6 => 151 + leapBit y
  | 7 => 181 + leapBit y
  | 8 => 212 + leapBit y
  | 9 => 243 + leapBit y
  | 10 => 273 + leapBit y
  | 11 => 304 + leapBit y
  | 12 => 334 + leapBit y
  | _ => 0

/-- Number of leap years in `1..n`. -/
def leapsBefore (n : ℕ) : ℕ :=
  n / 4 - n / 100 + n / 400

/-- Ordinal day number of a date (day 1 is 0001-01-01). -/
def toOrdinal (t : Date) : ℕ :=
  365 * (t.year - 1) + leapsBefore (t.year - 1) + daysBeforeMonth t.year t.month + t.day

/-- A date PHP's `DateTime` can actually hold. -/
def ValidDate (t : Date) : Prop :=
  1 ≤ t.year ∧ 1 ≤ t.month ∧ t.month ≤ 12 ∧ 1 ≤ t.day ∧ t.day ≤ daysInMonth t.year t.month

instance (t : Date) : Decidable (ValidDate t) := by
  unfold ValidDate; infer_instance

/-- The previous calendar day. -/
def predDay (t : Date) : Date :=
  if 1 < t.day then ⟨t.year, t.month, t.day - 1⟩
  else if 1 < t.month then ⟨t.year, t.month - 1, daysInMonth t.year (t.month - 1)⟩
  else ⟨t.year - 1, 12, 31⟩

/-- `modify('-k days')`: step back `k` calendar days. -/
def subDays (t : Date) : ℕ → Date
  | 0 => t
  | k + 1 => predDay (subDays t k)

/-- `modify('-1 year')` as PHP computes it: decrement the year; the
nonexistent Feb 29 of a non-leap year overflows to Mar 1. -/
def phpSubYear (t : Date) : Date :=
  if t.month = 2 ∧ t.day = 29 ∧ ¬ isLeap (t.year - 1) then ⟨t.year - 1, 3, 1⟩
  else ⟨t.year - 1, t.month, t.day⟩

/-- The `switch ($period)` of `getConsumption` (lines 88-101): the start
date of the upstream query window. The end date is always today. -/
def periodStart (today : Date) (period : String) : Date :=
  if period = "day" then subDays today 1
  else if period = "week" then subDays today 7
  else if period = "month" then subDays today 30
  else if period = "year" then phpSubYear today
  else today

/-- The `(dateFrom, dateTo)` pair sent upstream by `getConsumption`. -/
def dateWindow (today : Date) (period : String) : Date × Date :=
  (periodStart today period, today)

/-! ### The relay's request handling -/

/-- One element of the upstream `values` / `messwerte` / `data` arrays.
Each field is absent (`none`) or a number. -/
structure Reading where
  value : Option ℚ := none
  wert : Option ℚ := none
  consumption : Option ℚ := none
  verbrauch : Option ℚ := none
deriving DecidableEq, Repr

/-- The decoded upstream JSON body, covering the three recognized schemas:
a top-level `values`, `messwerte`, or `data` array. -/
structure UpstreamData where
  values : Option (List Reading) := none
  messwerte : Option (List Reading) := none
  data : Option (List Reading) := none
deriving DecidableEq, Repr

/-- The upstream HTTP response as curl delivers it: status code, raw body,
and the result of `json_decode` on the body (`none` = invalid JSON). -/
structure UpstreamResp where
  httpCode : ℕ
  rawBody : String
  json : Option UpstreamData
deriving DecidableEq, Repr

/-- The successful payloads the relay emits (`data` of a success body). -/
inductive RData where
  | message (msg : String)
  | consumption (weeklyConsumption : ℚ) (period : String) (unit : String)
      (rawData : UpstreamData)
deriving DecidableEq, Repr

/-- An emitted relay response: HTTP status plus the JSON body fields. -/
structure RelayResult where
  status : ℕ
  success : Bool
  data : Option RData
  error : Option String
deriving DecidableEq, Repr

/-- `success($data)` (lines 190-196): HTTP 200, `{success: true, data}`. -/
def successResp (d : RData) : RelayResult :=
  { status := 200, success := true, data := some d, error := none }

/-- `error($message, $code = 400)` (lines 201-208). -/
def errorResp (msg : String) (code : ℕ := 400) : RelayResult :=
  { status := code, success := false, data := none, error := some msg }

/-- The running total of the `foreach` summing loops (lines 141-156). -/
def sumLoop (f : Reading → ℚ) (rs : List Reading) : ℚ :=
  rs.foldl (fun acc r => acc + f r) 0

/-- `$reading['value'] ?? $reading['wert'] ?? 0`. -/
def valueWert (r : Reading) : ℚ :=
  r.value.getD (r.wert.getD 0)

/-- `$reading['wert'] ?? $reading['value'] ?? 0`. -/
def wertValue (r : Reading) : ℚ :=
  r.wert.getD (r.value.getD 0)

/-- `$reading['consumption'] ?? $reading['verbrauch'] ?? 0`. -/
def consumptionVerbrauch (r : Reading) : ℚ :=
  r.consumption.getD (r.verbrauch.getD 0)

/-- The `$totalConsumption` computed at lines 141-156: try the `values`,
`messwerte`, then `data` schema, else 0. -/
def consumptionTotal (d : UpstreamData) : ℚ :=
  match d.values with
  | some rs => sumLoop valueWert rs
  | none =>
    match d.messwerte with
    | some rs => sumLoop wertValue rs
    | none =>
      match d.data with
      | some rs => sumLoop consumptionVerbrauch rs
      | none => 0

/-- `getConsumption()` (lines 71-171). `today` is the clock reading used
for the date window; `upstream` maps the `(dateFrom, dateTo)` query window
to the curl outcome for that request (`Except.error` = curl error). -/
def getConsumption (apiKey meterId period : String) (today : Date)
    (upstream : Date × Date → Except String UpstreamResp) : RelayResult :=
  if phpEmpty apiKey then errorResp "API Key required" 401
  else if phpEmpty meterId then errorResp "Zählpunktnummer (meterId) is required" 400
  else
    match upstream (dateWindow today period) with
    | .error e => errorResp ("Connection error: " ++ e) 500
    | .ok r =>
      if r.httpCode = 200 then
        match r.json with
        | none => errorResp "Invalid JSON response" 500
        | some d =>
          successResp (.consumption (phpRound2 (consumptionTotal d)) "Diese Woche" "kWh" d)
      else if r.httpCode = 401 then errorResp "Unauthorized: Invalid API Key" 401
      else if r.httpCode = 404 then errorResp "Zählpunkt nicht gefunden" 404
      else errorResp ("API error: HTTP " ++ toString r.httpCode ++ " - " ++ (r.rawBody.take 200)) r.httpCode

/-- `handleLogin()` (lines 54-66). The session write is not observable in
the response and is elided. -/
def handleLogin (apiKey : String) : RelayResult :=
  if phpEmpty apiKey then
    errorResp "API Key required. Get one from https://api-portal.wienerstadtwerke.at"
  else successResp (.message "API Key configured")

/-- `handleLogout()` (lines 176-185). Session/cookie-file cleanup is not
observable in the response and is elided. -/
def handleLogout : RelayResult :=
  successResp (.message "Logged out successfully")

/-- The request parameters the relay reads from `$_POST`/`$_GET`
(`none` = parameter absent). -/
structure Request where
  postAction : Option String := none
  getAction : Option String := none
  postApiKey : Option String := none
  postPassword : Option String := none
  postMeterId : Option String := none
  getMeterId : Option String := none
  postPeriod : Option String := none
  getPeriod : Option String := none

/-- `$action = $_POST['action'] ?? $_GET['action'] ?? ''` (line 36). -/
def requestAction (req : Request) : String :=
  req.postAction.getD (req.getAction.getD "")

/-- `handleRequest()` (lines 35-48) with the parameter reads of the
individual handlers inlined (`?? ''` chains become `Option.getD`). -/
def handleRequest (req : Request) (today : Date)
    (upstream : Date × Date → Except String UpstreamResp) : RelayResult :=
  if requestAction req = "login" then
    handleLogin (req.postApiKey.getD (req.postPassword.getD ""))
  else if requestAction req = "getConsumption" then
    getConsumption (req.postPassword.getD (req.postApiKey.getD ""))
      (req.postMeterId.getD (req.getMeterId.getD ""))
      (req.postPeriod.getD (req.getPeriod.getD "week")) today upstream
  else if requestAction req = "logout" then
    handleLogout
  else errorResp "Invalid action"

end SmartMeterProxy

namespace Monitor

/-- `CONFIG.MAX_DEPARTURES` (monitor.js line 14): display cap. -/
def MAX_DEPARTURES : ℕ := 8

/-- A `departureTime` object of the transit API; only `countdown`
(minutes to departure) is consumed. -/
structure DepartureTime where
  countdown : ℕ
deriving DecidableEq, Repr

/-- One element of `line.departures.departure`. -/
structure ApiDeparture where
  departureTime : DepartureTime
deriving DecidableEq, Repr

/-- The `departures` object of a line; its `departure` array may be absent. -/
structure DepList where
  departure : Option (List ApiDeparture) := none
deriving DecidableEq, Repr

/-- A `line` object of a monitor. Optional fields model absent JS keys. -/
structure Line where
  name : String
  towards : String
  type : Option String := none
  barrierFree : Option Bool := none
  departures : Option DepList := none
deriving DecidableEq, Repr

/-- A `monitor` object; `lines` may be absent. -/
structure MonitorObj where
  lines : Option (List Line) := none
deriving DecidableEq, Repr

/-- A `trafficInfos` element. -/
structure TrafficInfo where
  title : Option String := none
  description : Option String := none
  subtitle : Option String := none
deriving DecidableEq, Repr

/-- The `data` object of a station response. -/
structure MData where
  monitors : Option (List MonitorObj) := none
  trafficInfos : Option (List TrafficInfo) := none
deriving DecidableEq, Repr

/-- One station response; `data` may be absent. -/
structure ApiResponse where
  data : Option MData := none
deriving DecidableEq, Repr

/-- The monitors a response contributes to the merge ([] when `data` or
`data.monitors` is absent, i.e. the `if` guard at line 119 fails). -/
def monitorsOf (r : ApiResponse) : List MonitorObj :=
  match r.data with
  | some d => d.monitors.getD []
  | none => []

/-- The trafficInfos a response contributes to the merge. -/
def trafficInfosOf (r : ApiResponse) : List TrafficInfo :=
  match r.data with
  | some d => d.trafficInfos.getD []
  | none => []

/-- `mergeAPIResponses(responses)` (lines 110-128): start from empty
`monitors`/`trafficInfos` arrays and push each response's lists. -/
def mergeAPIResponses (responses : List ApiResponse) : ApiResponse :=
  { data := some
      { monitors := some (responses.foldl (fun acc r => acc ++ monitorsOf r) [])
        trafficInfos := some (responses.foldl (fun acc r => acc ++ trafficInfosOf r) []) } }

/-- JS `s || dflt` for a possibly-absent string field ("" is falsy). -/
def jsOrString (s : Option String) (dflt : String) : String :=
  match s with
  | some v => if v = "" then dflt else v
  | none => dflt

/-- A flattened departure record as built at lines 150-157. -/
structure DepRec where
  line : String
  towards : String
  lineType : String
  barrierFree : Bool
  departureTime : DepartureTime
  countdown : ℕ
deriving DecidableEq, Repr

/-- The records one line contributes (lines 148-159): nothing when
`line.departures` or `line.departures.departure` is absent. -/
def lineDepartures (l : Line) : List DepRec :=
  match l.departures with
  | none => []
  | some dl =>
    match dl.departure with
    | none => []
    | some ds =>
      ds.map fun d =>
        { line := l.name
          towards := l.towards
          lineType := jsOrString l.type "ptBusCity"
          barrierFree := l.barrierFree.getD false
          departureTime := d.departureTime
          countdown := d.departureTime.countdown }

/-- The records one monitor contributes (lines 145-162). -/
def monitorDepartures (m : MonitorObj) : List DepRec :=
  match m.lines with
  | none => []
  | some ls => (ls.map lineDepartures).flatten

/-- The flat `departures` array extracted at lines 142-162. -/
def flattenDepartures (data : ApiResponse) : List DepRec :=
  match data.data with
  | none => []
  | some d => ((d.monitors.getD []).map monitorDepartures).flatten

/-- `departures.sort((a, b) => a.countdown - b.countdown)` (line 165):
a stable sort by countdown. -/
def sortByCountdown (ds : List DepRec) : List DepRec :=
  ds.mergeSort (fun a b => a.countdown ≤ b.countdown)

/-- The rows `displayDepartures` appends to the table body (lines
133-176): sort the flattened records and keep the first
`MAX_DEPARTURES`. (The empty-monitor early return renders no rows,
which coincides with taking from an empty list.) -/
def displayedRows (data : ApiResponse) : List DepRec :=
  (sortByCountdown (flattenDepartures data)).take MAX_DEPARTURES

/-- The countdown cell text of `createDepartureRow` (lines 202-209). -/
def countdownText (c : ℕ) : String :=
  if c = 0 then "JETZT"
  else if c = 1 then "1 min"
  else toString c ++ " min"

/-- A hardcoded row of the fallback demo table (lines 292-314). -/
structure FallbackRow where
  badge : String
  towards : String
  countdownLabel : String
  barrierFreeLabel : String
deriving DecidableEq, Repr

/-- The three demo rows `showFallbackData` writes. -/
def fallbackRows : List FallbackRow :=
  [ { badge := "U1", towards := "Leopoldau", countdownLabel := "2 min",
      barrierFreeLabel := "♿ Ja" },
    { badge := "U3", towards := "Ottakring", countdownLabel := "5 min",
      barrierFreeLabel := "♿ Ja" },
    { badge := "2", towards := "Dornbach", countdownLabel := "8 min",
      barrierFreeLabel := "Nein" } ]

/-- Observable outcome of one `loadDepartures` poll cycle. -/
inductive CycleOutcome where
  | fallback (banner : String) (rows : List FallbackRow)
  | live (rows : List DepRec) (traffic : List TrafficInfo)
deriving DecidableEq, Repr

/-- One `loadDepartures` cycle (lines 60-105) as a function of the settled
per-stop fetch results (`none` = that stop's fetch failed and was replaced
by null at line 78). All results null throws at line 88, landing in the
catch that shows the banner and the demo table; otherwise the valid subset
is merged and rendered, with traffic info from the first valid response. -/
def loadDeparturesCycle (results : List (Option ApiResponse)) : CycleOutcome :=
  match (results.filter (fun r => decide (r ≠ none))).reduceOption with
  | [] => .fallback "Fehler beim Laden der Abfahrtsdaten. Bitte versuchen Sie es später erneut." fallbackRows
  | first :: rest => .live (displayedRows (mergeAPIResponses (first :: rest))) (trafficInfosOf first)

/-- Icon/description pair of the weather lookup. -/
structure WeatherInfo where
  icon : String
  description : String
deriving DecidableEq, Repr

/-- The static `weatherMap` object literal (lines 658-683). -/
def weatherMap : List (ℕ × WeatherInfo) :=
  [ (0, ⟨"☀️", "Klar"⟩),
    (1, ⟨"🌤️", "Überwiegend klar"⟩),
    (2, ⟨"⛅", "Teilweise bewölkt"⟩),
    (3, ⟨"☁️", "Bewölkt"⟩),
    (45, ⟨"🌫️", "Neblig"⟩),
    (48, ⟨"🌫️", "Neblig"⟩),
    (51, ⟨"🌦️", "Leichter Nieselregen"⟩),
    (53, ⟨"🌦️", "Nieselregen"⟩),
    (55, ⟨"🌧️", "Starker Nieselregen"⟩),
    (61, ⟨"🌧️", "Leichter Regen"⟩),
    (63, ⟨"🌧️", "Regen"⟩),
    (65, ⟨"🌧️", "Starker Regen"⟩),
    (71, ⟨"🌨️", "Leichter Schneefall"⟩),
    (73, ⟨"🌨️", "Schneefall"⟩),
    (75, ⟨"🌨️", "Starker Schneefall"⟩),
    (77, ⟨"🌨️", "Schneegriesel"⟩),
    (80, ⟨"🌦️", "Leichte Schauer"⟩),
    (81, ⟨"🌧️", "Schauer"⟩),
    (82, ⟨"⛈️", "Starke Schauer"⟩),
    (85, ⟨"🌨️", "Leichte Schneeschauer"⟩),
    (86, ⟨"🌨️", "Schneeschauer"⟩),
    (95, ⟨"⛈️", "Gewitter"⟩),
    (96, ⟨"⛈️", "Gewitter mit Hagel"⟩),
    (99, ⟨"⛈️", "Starkes Gewitter"⟩) ]

/-- JS property lookup `weatherMap[code]` on the object literal. -/
def jsLookup (code : ℕ) : List (ℕ × WeatherInfo) → Option WeatherInfo
  | [] => none
  | (k, v) :: rest => if code = k then some v else jsLookup code rest

/-- `getWeatherInfo(code)` (lines 657-686): table lookup with the
`|| {icon, description}` fallback. -/
def getWeatherInfo (code : ℕ) : WeatherInfo :=
  (jsLookup code weatherMap).getD ⟨"🌡️", "Unbekannt"⟩

/-- Stored smart-meter credentials (the parsed localStorage blob). -/
structure Credentials where
  username : String
  password : String
  meterId : Option String := none
deriving DecidableEq, Repr

/-- `getSmartMeterCredentials()` (lines 900-910): `stored` is
`localStorage.getItem('smartmeter_config')` (`none` = key absent; the
empty string is falsy and also skips parsing); `parse` models
`JSON.parse`, with `none` standing for a thrown parse error, which the
try/catch turns into `null`. -/
def getSmartMeterCredentials (stored : Option String)
    (parse : String → Option Credentials) : Option Credentials :=
  match stored with
  | some s => if s = "" then none else parse s
  | none => none

/-- Observable outcome of one `loadSmartMeterData` run. -/
inductive SMOutcome where
  | notConfigured (valueText periodText : String)
  | demo
  | relayRequest (creds : Credentials)
deriving DecidableEq, Repr

/-- `loadSmartMeterData()` (lines 750-776): without credentials, show the
static placeholder and return (no relay request); with credentials, either
synthesize demo data (file protocol / no backend) or post to the relay. -/
def loadSmartMeterData (stored : Option String)
    (parse : String → Option Credentials) (fileProtocol backendAvailable : Bool) :
    SMOutcome :=
  match getSmartMeterCredentials stored parse with
  | none => .notConfigured "-- kWh" "Nicht konfiguriert"
  | some c => if fileProtocol || !backendAvailable then .demo else .relayRequest c

end Monitor

/-! ## Theorems -/

open SmartMeterProxy Monitor

lemma foldl_append_eq_flatten {α β : Type} (f : α → List β) :
    ∀ (l : List α) (acc : List β),
      l.foldl (fun a r => a ++ f r) acc = acc ++ (l.map f).flatten
  | [], acc => by simp
  | x :: xs, acc => by
    simp [List.foldl_cons, foldl_append_eq_flatten f xs, List.append_assoc]

lemma filter_ne_none_reduceOption (l : List (Option ApiResponse)) :
    (l.filter (fun r => decide (r ≠ none))).reduceOption = l.reduceOption := by
  induction l with
  | nil => rfl
  | cons x xs ih =>
    cases x with
    | none =>
      rw [show List.filter (fun r => decide (r ≠ none)) (none :: xs) =
          List.filter (fun r => decide (r ≠ none)) xs from rfl]
      rw [show (List.reduceOption (none :: xs)) = xs.reduceOption from rfl]
      exact ih
    | some a =>
      rw [show List.filter (fun r => decide (r ≠ none)) (some a :: xs) =
          some a :: List.filter (fun r => decide (r ≠ none)) xs from rfl]
      rw [show (List.reduceOption (some a :: xs)) = a :: xs.reduceOption from rfl]
      rw [show (List.reduceOption (some a :: List.filter (fun r => decide (r ≠ none)) xs)) =
          a :: (List.filter (fun r => decide (r ≠ none)) xs).reduceOption from rfl]
      rw [ih]

lemma jsLookup_eq_none_of_not_mem (c : ℕ) :
    ∀ l : List (ℕ × WeatherInfo), c ∉ l.map Prod.fst → jsLookup c l = none
  | [], _ => rfl
  | (k, v) :: rest, h => by
    rw [List.map_cons] at h
    have hk : c ≠ k := fun hc => h (hc ▸ List.mem_cons_self _ _)
    have hr : c ∉ rest.map Prod.fst := fun hc => h (List.mem_cons_of_mem _ hc)
    simp [jsLookup, hk, jsLookup_eq_none_of_not_mem c rest hr]

lemma loadDeparturesCycle_eq (results : List (Option ApiResponse)) :
    loadDeparturesCycle results =
      match results.reduceOption with
      | [] => .fallback
          "Fehler beim Laden der Abfahrtsdaten. Bitte versuchen Sie es später erneut."
          fallbackRows
      | first :: rest =>
          .live (displayedRows (mergeAPIResponses (first :: rest))) (trafficInfosOf first) := by
  simp only [loadDeparturesCycle]
  rw [filter_ne_none_reduceOption]

lemma leapBit_le_one (y : ℕ) : leapBit y ≤ 1 := by
  unfold leapBit; split <;> omega

lemma leapBit_eq (y : ℕ) :
    leapBit y = if (4 ∣ y ∧ ¬ 100 ∣ y) ∨ 400 ∣ y then 1 else 0 := by
  unfold leapBit isLeap
  by_cases d4 : 4 ∣ y <;> by_cases d100 : 100 ∣ y <;> by_cases d400 : 400 ∣ y <;>
    simp_all [Nat.dvd_iff_mod_eq_zero]

lemma leapsBefore_succ (n : ℕ) :
    leapsBefore (n + 1) = leapsBefore n + leapBit (n + 1) := by
  have hd1 : n / 100 ≤ n / 4 := Nat.div_le_div_left (by norm_num) (by norm_num)
  have h4 := Nat.succ_div n 4
  have h100 := Nat.succ_div n 100
  have h400 := Nat.succ_div n 400
  rw [leapBit_eq]
  unfold leapsBefore
  by_cases d4 : 4 ∣ n + 1 <;> by_cases d100 : 100 ∣ n + 1 <;> by_cases d400 : 400 ∣ n + 1
  all_goals first
    | exact absurd (dvd_trans (by norm_num : (100:ℕ) ∣ 400) d400) d100
    | exact absurd (dvd_trans (by norm_num : (4:ℕ) ∣ 100) d100) d4
    | (rw [if_pos d4] at h4; rw [if_pos d100] at h100; rw [if_pos d400] at h400
       rw [if_pos (Or.inr d400)]; omega)
    | (rw [if_pos d4] at h4; rw [if_pos d100] at h100; rw [if_neg d400] at h400
       rw [if_neg (by tauto)]; omega)
    | (rw [if_pos d4] at h4; rw [if_neg d100] at h100; rw [if_neg d400] at h400
       rw [if_pos (Or.inl ⟨d4, d100⟩)]; omega)
    | (rw [if_neg d4] at h4; rw [if_neg d100] at h100; rw [if_neg d400] at h400
       rw [if_neg (by tauto)]; omega)

lemma toOrdinal_mk (y m d : ℕ) :
    toOrdinal ⟨y, m, d⟩ =
      365 * (y - 1) + leapsBefore (y - 1) + daysBeforeMonth y m + d := rfl

lemma validDate_mk (y m d : ℕ) :
    ValidDate ⟨y, m, d⟩ ↔
      1 ≤ y ∧ 1 ≤ m ∧ m ≤ 12 ∧ 1 ≤ d ∧ d ≤ daysInMonth y m := Iff.rfl

lemma one_le_daysInMonth (y m : ℕ) (h1 : 1 ≤ m) (h2 : m ≤ 12) :
    1 ≤ daysInMonth y m := by
  interval_cases m <;> simp [daysInMonth, leapBit] <;> omega

lemma dbm_succ (y m : ℕ) (h1 : 1 ≤ m) (h2 : m ≤ 11) :
    daysBeforeMonth y (m + 1) = daysBeforeMonth y m + daysInMonth y m := by
  interval_cases m <;> simp [daysBeforeMonth, daysInMonth] <;> omega

lemma toOrdinal_le_of_year_one (t : Date) (hv : ValidDate t) (h1 : t.year = 1) :
    toOrdinal t ≤ 365 := by
  obtain ⟨y, m, d⟩ := t
  obtain ⟨hy, hm1, hm2, hd1, hd2⟩ := (validDate_mk y m d).mp hv
  replace h1 : y = 1 := h1
  subst h1
  rw [toOrdinal_mk]
  have hb : leapBit 1 = 0 := rfl
  interval_cases m <;>
    simp only [daysBeforeMonth, daysInMonth, leapsBefore] at hd2 ⊢ <;> omega

lemma predDay_spec (t : Date) (hv : ValidDate t) (hord : 365 < toOrdinal t) :
    ValidDate (predDay t) ∧ toOrdinal (predDay t) + 1 = toOrdinal t := by
  obtain ⟨y, m, d⟩ := t
  have hy2 : 2 ≤ y := by
    by_contra hlt
    obtain ⟨hy, -, -, -, -⟩ := (validDate_mk y m d).mp hv
    have hy1 : y = 1 := by omega
    exact absurd (toOrdinal_le_of_year_one ⟨y, m, d⟩ hv hy1) (by omega)
  obtain ⟨hy, hm1, hm2, hd1, hd2⟩ := (validDate_mk y m d).mp hv
  by_cases hd : 1 < d
  · have hpd : predDay ⟨y, m, d⟩ = ⟨y, m, d - 1⟩ := by
      unfold predDay
      rw [if_pos hd]
    rw [hpd, validDate_mk, toOrdinal_mk, toOrdinal_mk]
    exact ⟨⟨hy, hm1, hm2, by omega, by omega⟩, by omega⟩
  · replace hd : d = 1 := by omega
    subst hd
    by_cases hm : 1 < m
    · have hpd : predDay ⟨y, m, 1⟩ = ⟨y, m - 1, daysInMonth y (m - 1)⟩ := by
        show (if 1 < (1:ℕ) then (⟨y, m, 1 - 1⟩ : Date)
          else if 1 < m then ⟨y, m - 1, daysInMonth y (m - 1)⟩
          else ⟨y - 1, 12, 31⟩) = ⟨y, m - 1, daysInMonth y (m - 1)⟩
        rw [if_neg (by omega), if_pos hm]
      rw [hpd, validDate_mk, toOrdinal_mk, toOrdinal_mk]
      have hdbm : daysBeforeMonth y (m - 1 + 1) =
          daysBeforeMonth y (m - 1) + daysInMonth y (m - 1) :=
        dbm_succ y (m - 1) (by omega) (by omega)
      rw [show m - 1 + 1 = m from by omega] at hdbm
      exact ⟨⟨hy, by omega, by omega,
        one_le_daysInMonth y (m - 1) (by omega) (by omega), le_refl _⟩, by omega⟩
    · replace hm : m = 1 := by omega
      subst hm
      have hpd : predDay ⟨y, 1, 1⟩ = ⟨y - 1, 12, 31⟩ := by
        show (if 1 < (1:ℕ) then (⟨y, 1, 1 - 1⟩ : Date)
          else if 1 < (1:ℕ) then ⟨y, 1 - 1, daysInMonth y (1 - 1)⟩
          else ⟨y - 1, 12, 31⟩) = ⟨y - 1, 12, 31⟩
        rw [if_neg (by omega), if_neg (by omega)]
      obtain ⟨k, rfl⟩ : ∃ k, y = k + 2 := ⟨y - 2, by omega⟩
      rw [hpd, validDate_mk, toOrdinal_mk, toOrdinal_mk]
      have hL := leapsBefore_succ k
      have hb := leapBit_le_one (k + 1)
      have h12 : daysInMonth (k + 2 - 1) 12 = 31 := rfl
      have hdbm12 : daysBeforeMonth (k + 2 - 1) 12 = 334 + leapBit (k + 1) := rfl
      have hdbm1 : daysBeforeMonth (k + 2) 1 = 0 := rfl
      refine ⟨⟨by omega, by omega, by omega, by omega, by omega⟩, ?_⟩
      rw [hdbm12, hdbm1, show k + 2 - 1 - 1 = k from rfl,
        show k + 2 - 1 = k + 1 from rfl]
      omega

lemma subDays_spec (t : Date) (k : ℕ) (hv : ValidDate t)
    (hord : 365 + k < toOrdinal t) :
    ValidDate (subDays t k) ∧ toOrdinal (subDays t k) + k = toOrdinal t := by
  induction k with
  | zero => exact ⟨hv, rfl⟩
  | succ n ih =>
    obtain ⟨hv', he⟩ := ih (by omega)
    obtain ⟨hv'', he'⟩ := predDay_spec (subDays t n) hv' (by omega)
    exact ⟨hv'', by rw [show subDays t (n + 1) = predDay (subDays t n) from rfl]; omega⟩

lemma phpSubYear_spec (t : Date) (hv : ValidDate t) (hy2 : 2 ≤ t.year) :
    ValidDate (phpSubYear t) ∧
    (toOrdinal (phpSubYear t) + 365 = toOrdinal t ∨
      toOrdinal (phpSubYear t) + 366 = toOrdinal t) := by
  obtain ⟨y, m, d⟩ := t
  replace hy2 : 2 ≤ y := hy2
  obtain ⟨hy, hm1, hm2, hd1, hd2⟩ := (validDate_mk y m d).mp hv
  obtain ⟨k, rfl⟩ : ∃ k, y = k + 2 := ⟨y - 2, by omega⟩
  have hL := leapsBefore_succ k
  have hb1 := leapBit_le_one (k + 1)
  have hb2 := leapBit_le_one (k + 2)
  by_cases hfeb : m = 2 ∧ d = 29 ∧ ¬ isLeap (k + 2 - 1)
  · obtain ⟨hm', hdd, hnl⟩ := hfeb
    subst hm'
    subst hdd
    have hps : phpSubYear ⟨k + 2, 2, 29⟩ = ⟨k + 2 - 1, 3, 1⟩ := by
      show (if (2:ℕ) = 2 ∧ (29:ℕ) = 29 ∧ ¬ isLeap (k + 2 - 1)
        then (⟨k + 2 - 1, 3, 1⟩ : Date) else ⟨k + 2 - 1, 2, 29⟩) = ⟨k + 2 - 1, 3, 1⟩
      rw [if_pos ⟨rfl, rfl, hnl⟩]
    have hbit : leapBit (k + 1) = 0 := by
      unfold leapBit
      rw [if_neg (show ¬ isLeap (k + 1) = true from hnl)]
    have h31 : daysInMonth (k + 2 - 1) 3 = 31 := rfl
    have hdbm3 : daysBeforeMonth (k + 2 - 1) 3 = 59 + leapBit (k + 1) := rfl
    have hdbm2 : daysBeforeMonth (k + 2) 2 = 31 := rfl
    rw [hps, validDate_mk, toOrdinal_mk, toOrdinal_mk]
    refine ⟨⟨by omega, by omega, by omega, by omega, by omega⟩, ?_⟩
    rw [hdbm3, hdbm2, show k + 2 - 1 - 1 = k from rfl, show k + 2 - 1 = k + 1 from rfl]
    omega
  · have hps : phpSubYear ⟨k + 2, m, d⟩ = ⟨k + 2 - 1, m, d⟩ := by
      show (if m = 2 ∧ d = 29 ∧ ¬ isLeap (k + 2 - 1)
        then (⟨k + 2 - 1, 3, 1⟩ : Date) else ⟨k + 2 - 1, m, d⟩) = ⟨k + 2 - 1, m, d⟩
      rw [if_neg hfeb]
    have hdim : d ≤ daysInMonth (k + 2 - 1) m := by
      by_cases h1 : m = 2
      · subst h1
        replace hd2 : d ≤ 28 + leapBit (k + 2) := hd2
        by_cases h2 : d = 29
        · have h3 : isLeap (k + 2 - 1) = true := by
            by_contra hne
            exact hfeb ⟨rfl, h2, fun hc => hne hc⟩
          have h29 : daysInMonth (k + 2 - 1) 2 = 29 := by
            show 28 + leapBit (k + 2 - 1) = 29
            unfold leapBit
            rw [if_pos h3]
          omega
        · have h28 : daysInMonth (k + 2 - 1) 2 = 28 + leapBit (k + 2 - 1) := rfl
          have hb3 := leapBit_le_one (k + 2 - 1)
          omega
      · have heqd : daysInMonth (k + 2 - 1) m = daysInMonth (k + 2) m := by
          interval_cases m <;> first | rfl | exact absurd rfl h1
        omega
    rw [hps, validDate_mk, toOrdinal_mk, toOrdinal_mk]
    refine ⟨⟨by omega, hm1, hm2, hd1, hdim⟩, ?_⟩
    rw [show k + 2 - 1 - 1 = k from rfl, show k + 2 - 1 = k + 1 from rfl]
    rw [show k + 2 - 1 = k + 1 from rfl] at hdim
    interval_cases m <;> simp only [daysBeforeMonth] <;> omega

lemma periodStart_day (t : Date) : periodStart t "day" = subDays t 1 := by
  unfold periodStart
  rw [if_pos rfl]

lemma periodStart_week (t : Date) : periodStart t "week" = subDays t 7 := by
  unfold periodStart
  rw [if_neg (by decide), if_pos rfl]

lemma periodStart_month (t : Date) : periodStart t "month" = subDays t 30 := by
  unfold periodStart
  rw [if_neg (by decide), if_neg (by decide), if_pos rfl]

lemma periodStart_year (t : Date) : periodStart t "year" = phpSubYear t := by
  unfold periodStart
  rw [if_neg (by decide), if_neg (by decide), if_neg (by decide), if_pos rfl]

/-- Claim C3 as stated is false: for the period keyword `year` the window
start is not a fixed number of days before today; the span from the start
to today is 366 days when today is 2024-03-01 but 365 days when today is
2025-03-01. -/
theorem dateWindow_fixed_offset_refuted :
    ¬ (∀ per ∈ ["day", "week", "month", "year"], ∀ t₁ t₂ : Date,
        ValidDate t₁ → ValidDate t₂ →
        toOrdinal t₁ - toOrdinal (periodStart t₁ per) =
          toOrdinal t₂ - toOrdinal (periodStart t₂ per)) := by
  intro h
  have h2 := h "year" (by simp) ⟨2024, 3, 1⟩ ⟨2025, 3, 1⟩ (by decide) (by decide)
  exact absurd h2 (by decide)

/-- Claim C3, amended: `dateTo` is always today; `day`, `week` and `month`
start the window a fixed 1, 7 and 30 days before today, but `year`
subtracts one calendar year, which lies 365 or 366 days back depending on
today's date. -/
theorem dateWindow_offsets (t : Date) (per : String) (hv : ValidDate t)
    (hord : 395 < toOrdinal t) :
    (dateWindow t per).2 = t ∧
    toOrdinal (periodStart t "day") + 1 = toOrdinal t ∧
    toOrdinal (periodStart t "week") + 7 = toOrdinal t ∧
    toOrdinal (periodStart t "month") + 30 = toOrdinal t ∧
    (toOrdinal (periodStart t "year") + 365 = toOrdinal t ∨
      toOrdinal (periodStart t "year") + 366 = toOrdinal t) := by
  have hy2 : 2 ≤ t.year := by
    by_contra hlt
    have hy1 : t.year = 1 := by
      obtain ⟨hy, _, _, _, _⟩ := hv
      omega
    exact absurd (toOrdinal_le_of_year_one t hv hy1) (by omega)
  refine ⟨rfl, ?_, ?_, ?_, ?_⟩
  · rw [periodStart_day]
    exact (subDays_spec t 1 hv (by omega)).2
  · rw [periodStart_week]
    exact (subDays_spec t 7 hv (by omega)).2
  · rw [periodStart_month]
    exact (subDays_spec t 30 hv (by omega)).2
  · rw [periodStart_year]
    exact (phpSubYear_spec t hv hy2).2

/-- Closed instance of the amended C3 at today = 2025-10-11. -/
theorem dateWindow_offsets_witness :
    ValidDate ⟨2025, 10, 11⟩ ∧ 395 < toOrdinal ⟨2025, 10, 11⟩ ∧
    toOrdinal (periodStart ⟨2025, 10, 11⟩ "day") + 1 = toOrdinal ⟨2025, 10, 11⟩ ∧
    toOrdinal (periodStart ⟨2025, 10, 11⟩ "week") + 7 = toOrdinal ⟨2025, 10, 11⟩ ∧
    toOrdinal (periodStart ⟨2025, 10, 11⟩ "month") + 30 = toOrdinal ⟨2025, 10, 11⟩ ∧
    (toOrdinal (periodStart ⟨2025, 10, 11⟩ "year") + 365 = toOrdinal ⟨2025, 10, 11⟩ ∨
      toOrdinal (periodStart ⟨2025, 10, 11⟩ "year") + 366 = toOrdinal ⟨2025, 10, 11⟩) := by
  have h := dateWindow_offsets ⟨2025, 10, 11⟩ "week" (by decide) (by decide)
  exact ⟨by decide, by decide, h.2.1, h.2.2.1, h.2.2.2.1, h.2.2.2.2⟩

lemma sumLoop_eq_sum (f : Reading → ℚ) (rs : List Reading) :
    sumLoop f rs = (rs.map f).sum := by
  have key : ∀ (l : List Reading) (acc : ℚ),
      l.foldl (fun a r => a + f r) acc = acc + (l.map f).sum := by
    intro l
    induction l with
    | nil => intro acc; simp
    | cons x xs ih => intro acc; simp [ih]; ring
  simpa using key rs 0

/-- Claim C1: on an upstream 200 response whose JSON body exposes one of
the three recognized schemas, `getConsumption` succeeds with
`weeklyConsumption` equal to that schema's sum (first-named field, falling
back to the alternate name, missing fields contributing 0), rounded to two
decimals. -/
theorem getConsumption_sums_schemas (key mid per : String) (today : Date)
    (u : Date × Date → Except String UpstreamResp) (r : UpstreamResp) (d : UpstreamData)
    (hk : phpEmpty key = false) (hm : phpEmpty mid = false)
    (hu : u (dateWindow today per) = .ok r)
    (h200 : r.httpCode = 200) (hj : r.json = some d) :
    (∀ rs, d.values = some rs →
      getConsumption key mid per today u =
        successResp (.consumption (phpRound2 ((rs.map valueWert).sum))
          "Diese Woche" "kWh" d)) ∧
    (d.values = none → ∀ rs, d.messwerte = some rs →
      getConsumption key mid per today u =
        successResp (.consumption (phpRound2 ((rs.map wertValue).sum))
          "Diese Woche" "kWh" d)) ∧
    (d.values = none → d.messwerte = none → ∀ rs, d.data = some rs →
      getConsumption key mid per today u =
        successResp (.consumption (phpRound2 ((rs.map consumptionVerbrauch).sum))
          "Diese Woche" "kWh" d)) := by
  have hbase : getConsumption key mid per today u =
      successResp (.consumption (phpRound2 (consumptionTotal d)) "Diese Woche" "kWh" d) := by
    unfold getConsumption
    rw [hu]
    simp [hk, hm, h200, hj]
  refine ⟨?_, ?_, ?_⟩
  · intro rs hv
    rw [hbase, show consumptionTotal d = sumLoop valueWert rs from by
      unfold consumptionTotal; rw [hv], sumLoop_eq_sum]
  · intro hv rs hmw
    rw [hbase, show consumptionTotal d = sumLoop wertValue rs from by
      unfold consumptionTotal; rw [hv, hmw], sumLoop_eq_sum]
  · intro hv hmw rs hd
    rw [hbase, show consumptionTotal d = sumLoop consumptionVerbrauch rs from by
      unfold consumptionTotal; rw [hv, hmw, hd], sumLoop_eq_sum]

/-- Closed instance of C1 on the `values` schema: readings 1.5 (via
`value`), 2 (via the `wert` fallback) and one with neither field sum to
3.5. -/
theorem getConsumption_sums_schemas_witness :
    getConsumption "k" "m" "week" ⟨2025, 10, 11⟩
        (fun _ => .ok ⟨200, "body",
          some ⟨some [⟨some (3/2), none, none, none⟩, ⟨none, some 2, none, none⟩,
            ⟨none, none, none, none⟩], none, none⟩⟩) =
      successResp (.consumption (7/2) "Diese Woche" "kWh"
        ⟨some [⟨some (3/2), none, none, none⟩, ⟨none, some 2, none, none⟩,
          ⟨none, none, none, none⟩], none, none⟩) := by
  have h := (getConsumption_sums_schemas "k" "m" "week" ⟨2025, 10, 11⟩
      (fun _ => .ok ⟨200, "body",
        some ⟨some [⟨some (3/2), none, none, none⟩, ⟨none, some 2, none, none⟩,
          ⟨none, none, none, none⟩], none, none⟩⟩)
      ⟨200, "body",
        some ⟨some [⟨some (3/2), none, none, none⟩, ⟨none, some 2, none, none⟩,
          ⟨none, none, none, none⟩], none, none⟩⟩
      ⟨some [⟨some (3/2), none, none, none⟩, ⟨none, some 2, none, none⟩,
        ⟨none, none, none, none⟩], none, none⟩
      rfl rfl rfl rfl rfl).1
      [⟨some (3/2), none, none, none⟩, ⟨none, some 2, none, none⟩,
        ⟨none, none, none, none⟩] rfl
  have hval : phpRound2 ((List.map valueWert
      [⟨some (3/2), none, none, none⟩, ⟨none, some 2, none, none⟩,
        ⟨none, none, none, none⟩]).sum) = 7/2 := by
    norm_num [valueWert, phpRound2, phpRoundInt, ratFloor]
    rw [show Int.fdiv 701 2 = 350 from by decide]
    norm_num
  rw [h, hval]

/-- Claim C2 as stated is false: with both the key and the meter identifier
empty, the key check fires first and the relay answers 401, not the 400
the claim requires for every empty meter identifier. -/
theorem getConsumption_meterId_400_refuted :
    ¬ (∀ (key mid per : String) (today : Date)
        (u : Date × Date → Except String UpstreamResp),
        phpEmpty mid = true → (getConsumption key mid per today u).status = 400) := by
  intro h
  have h2 := h "" "" "week" ⟨2025, 10, 11⟩ (fun _ => .error "down") rfl
  exact absurd h2 (by decide)

/-- Claim C2, amended: an empty key yields 401 regardless of the meter
identifier; with a non-empty key an empty meter identifier yields 400; and
with both present an upstream 404 yields the meter-not-found error with
status 404. -/
theorem getConsumption_error_statuses (key mid per : String) (today : Date)
    (u : Date × Date → Except String UpstreamResp) :
    (phpEmpty key = true →
      getConsumption key mid per today u = errorResp "API Key required" 401) ∧
    (phpEmpty key = false → phpEmpty mid = true →
      getConsumption key mid per today u =
        errorResp "Zählpunktnummer (meterId) is required" 400) ∧
    (∀ r, phpEmpty key = false → phpEmpty mid = false →
      u (dateWindow today per) = .ok r → r.httpCode = 404 →
      getConsumption key mid per today u =
        errorResp "Zählpunkt nicht gefunden" 404) := by
  refine ⟨?_, ?_, ?_⟩
  · intro hk
    simp [getConsumption, hk]
  · intro hk hm
    simp [getConsumption, hk, hm]
  · intro r hk hm hu h404
    unfold getConsumption
    rw [hu]
    simp [hk, hm, h404]

/-- Closed instances of the three branches of the amended C2. -/
theorem getConsumption_error_statuses_witness :
    getConsumption "" "m" "week" ⟨2025, 10, 11⟩ (fun _ => .error "down") =
      errorResp "API Key required" 401 ∧
    getConsumption "k" "" "week" ⟨2025, 10, 11⟩ (fun _ => .error "down") =
      errorResp "Zählpunktnummer (meterId) is required" 400 ∧
    getConsumption "k" "m" "week" ⟨2025, 10, 11⟩ (fun _ => .ok ⟨404, "", none⟩) =
      errorResp "Zählpunkt nicht gefunden" 404 :=
  ⟨(getConsumption_error_statuses "" "m" "week" ⟨2025, 10, 11⟩
      (fun _ => .error "down")).1 rfl,
   (getConsumption_error_statuses "k" "" "week" ⟨2025, 10, 11⟩
      (fun _ => .error "down")).2.1 rfl rfl,
   (getConsumption_error_statuses "k" "m" "week" ⟨2025, 10, 11⟩
      (fun _ => .ok ⟨404, "", none⟩)).2.2 ⟨404, "", none⟩ rfl rfl rfl rfl⟩

/-- Claim C10: every relay response, for any action and outcome, carries
`success` with `data` present exactly when `success` is true and `error`
present exactly when it is false. -/
theorem handleRequest_response_shape (req : Request) (today : Date)
    (u : Date × Date → Except String UpstreamResp) :
    (handleRequest req today u).data.isSome = (handleRequest req today u).success ∧
    (handleRequest req today u).error.isSome = !(handleRequest req today u).success := by
  unfold handleRequest handleLogin handleLogout getConsumption
  repeat' split
  all_goals exact ⟨rfl, rfl⟩

/-- Claim C4: merging a list of station responses concatenates all monitor
lists and all trafficInfos lists; for two responses with disjoint monitor
lists every monitor of either input is in the merged output, none is
added, and the counts add up. -/
theorem mergeAPIResponses_union (rs : List ApiResponse) (r1 r2 : ApiResponse)
    (hdisj : ∀ m, m ∈ monitorsOf r1 → m ∉ monitorsOf r2) :
    monitorsOf (mergeAPIResponses rs) = (rs.map monitorsOf).flatten ∧
    trafficInfosOf (mergeAPIResponses rs) = (rs.map trafficInfosOf).flatten ∧
    (∀ m, m ∈ monitorsOf (mergeAPIResponses [r1, r2]) ↔
      (m ∈ monitorsOf r1 ∨ m ∈ monitorsOf r2)) ∧
    (monitorsOf (mergeAPIResponses [r1, r2])).length =
      (monitorsOf r1).length + (monitorsOf r2).length := by
  have hm : monitorsOf (mergeAPIResponses rs) = (rs.map monitorsOf).flatten := by
    have : monitorsOf (mergeAPIResponses rs) =
        rs.foldl (fun a r => a ++ monitorsOf r) [] := rfl
    rw [this, foldl_append_eq_flatten, List.nil_append]
  have ht : trafficInfosOf (mergeAPIResponses rs) = (rs.map trafficInfosOf).flatten := by
    have : trafficInfosOf (mergeAPIResponses rs) =
        rs.foldl (fun a r => a ++ trafficInfosOf r) [] := rfl
    rw [this, foldl_append_eq_flatten, List.nil_append]
  have hm2 : monitorsOf (mergeAPIResponses [r1, r2]) =
      monitorsOf r1 ++ monitorsOf r2 := by
    have : monitorsOf (mergeAPIResponses [r1, r2]) =
        [r1, r2].foldl (fun a r => a ++ monitorsOf r) [] := rfl
    rw [this, foldl_append_eq_flatten]
    simp
  refine ⟨hm, ht, ?_, ?_⟩
  · intro m
    rw [hm2, List.mem_append]
  · rw [hm2, List.length_append]

/-- Closed instance of C4's merge theorem on two concrete single-monitor
responses with disjoint (distinct) monitors. -/
theorem mergeAPIResponses_union_witness :
    monitorsOf (mergeAPIResponses
        [⟨some ⟨some [⟨some [⟨"26A", "Kagran", none, none, none⟩]⟩], none⟩⟩,
         ⟨some ⟨some [⟨some [⟨"26A", "Strebersdorf", none, none, none⟩]⟩], none⟩⟩]) =
      [⟨some [⟨"26A", "Kagran", none, none, none⟩]⟩,
       ⟨some [⟨"26A", "Strebersdorf", none, none, none⟩]⟩] ∧
    (monitorsOf (mergeAPIResponses
        [⟨some ⟨some [⟨some [⟨"26A", "Kagran", none, none, none⟩]⟩], none⟩⟩,
         ⟨some ⟨some [⟨some [⟨"26A", "Strebersdorf", none, none, none⟩]⟩], none⟩⟩])).length = 2 := by
  have h := mergeAPIResponses_union
    [⟨some ⟨some [⟨some [⟨"26A", "Kagran", none, none, none⟩]⟩], none⟩⟩,
     ⟨some ⟨some [⟨some [⟨"26A", "Strebersdorf", none, none, none⟩]⟩], none⟩⟩]
    ⟨some ⟨some [⟨some [⟨"26A", "Kagran", none, none, none⟩]⟩], none⟩⟩
    ⟨some ⟨some [⟨some [⟨"26A", "Strebersdorf", none, none, none⟩]⟩], none⟩⟩
    (by decide)
  refine ⟨?_, ?_⟩
  · rw [h.1]; rfl
  · rw [h.2.2.2]; rfl

/-- Claim C5: the displayed rows are the first `min(MAX_DEPARTURES, total)`
elements of the flattened departure records sorted non-decreasing by
countdown; the sort permutes the flattened records, and the cap is 8. -/
theorem displayedRows_sorted_truncated (data : ApiResponse) :
    displayedRows data = (sortByCountdown (flattenDepartures data)).take MAX_DEPARTURES ∧
    (sortByCountdown (flattenDepartures data)).Perm (flattenDepartures data) ∧
    List.Sorted (fun a b : DepRec => a.countdown ≤ b.countdown)
      (sortByCountdown (flattenDepartures data)) ∧
    (displayedRows data).length = min MAX_DEPARTURES (flattenDepartures data).length ∧
    MAX_DEPARTURES = 8 := by
  refine ⟨rfl, List.mergeSort_perm _ _, ?_, ?_, rfl⟩
  · have h := @List.sorted_mergeSort DepRec
      (fun a b : DepRec => decide (a.countdown ≤ b.countdown))
      (fun a b c hab hbc => by
        simp only [decide_eq_true_eq] at hab hbc ⊢; omega)
      (fun a b => by
        simp only [Bool.or_eq_true, decide_eq_true_eq]; omega)
      (flattenDepartures data)
    exact h.imp fun hab => by simpa using hab
  · simp [displayedRows, sortByCountdown, List.length_take, List.length_mergeSort]

/-- Claim C6: a poll cycle falls back (localized banner plus the hardcoded
demo table) exactly when every per-stop fetch failed; any non-empty subset
of successes renders the merged live data, with traffic info taken from
the first success. -/
theorem loadDeparturesCycle_fallback_iff (results : List (Option ApiResponse)) :
    (loadDeparturesCycle results =
      .fallback "Fehler beim Laden der Abfahrtsdaten. Bitte versuchen Sie es später erneut."
        fallbackRows ↔
      ∀ r ∈ results, r = none) ∧
    (∀ first rest, results.reduceOption = first :: rest →
      loadDeparturesCycle results =
        .live (displayedRows (mergeAPIResponses (first :: rest))) (trafficInfosOf first)) := by
  have heq := loadDeparturesCycle_eq results
  constructor
  · rw [heq]
    cases h : results.reduceOption with
    | nil =>
      constructor
      · intro _ r hr
        cases r with
        | none => rfl
        | some a =>
          have ha : a ∈ results.reduceOption := List.reduceOption_mem_iff.mpr hr
          rw [h] at ha
          cases ha
      · intro _; rfl
    | cons a as =>
      constructor
      · intro hc; cases hc
      · intro hall
        have ha : some a ∈ results :=
          List.reduceOption_mem_iff.mp (h ▸ List.mem_cons_self a as)
        exact absurd (hall _ ha) (by simp)
  · intro first rest h
    rw [heq, h]

/-- Closed instance of C6: one failed and one successful fetch still render
live data, while two failed fetches fall back to the demo table. -/
theorem loadDeparturesCycle_fallback_iff_witness :
    loadDeparturesCycle [none, some ⟨none⟩] =
      .live (displayedRows (mergeAPIResponses [⟨none⟩])) (trafficInfosOf ⟨none⟩) ∧
    loadDeparturesCycle [none, none] =
      .fallback "Fehler beim Laden der Abfahrtsdaten. Bitte versuchen Sie es später erneut."
        fallbackRows := by
  constructor
  · exact (loadDeparturesCycle_fallback_iff [none, some ⟨none⟩]).2 ⟨none⟩ [] rfl
  · exact (loadDeparturesCycle_fallback_iff [none, none]).1.mpr (by decide)

/-- Claim C7: countdown 0 renders as "JETZT", 1 as the singular "1 min",
and every countdown above 1 as the plural "(n) min". -/
theorem countdownText_cases (c : ℕ) (h : 1 < c) :
    countdownText 0 = "JETZT" ∧ countdownText 1 = "1 min" ∧
    countdownText c = toString c ++ " min" := by
  refine ⟨rfl, rfl, ?_⟩
  unfold countdownText
  rw [if_neg (by omega), if_neg (by omega)]

/-- Closed instance of C7 at countdown 5. -/
theorem countdownText_cases_witness :
    1 < 5 ∧ countdownText 0 = "JETZT" ∧ countdownText 1 = "1 min" ∧
    countdownText 5 = "5 min" := by
  have h := countdownText_cases 5 (by omega)
  exact ⟨by omega, h.1, h.2.1, h.2.2⟩

/-- Claim C8: weather code 0 maps to the clear-sky icon/description, and
any code outside the static table maps to the fixed unknown fallback (the
lookup is total: it is a function on all of ℕ). -/
theorem getWeatherInfo_clear_and_fallback (c : ℕ)
    (h : c ∉ weatherMap.map Prod.fst) :
    getWeatherInfo 0 = ⟨"☀️", "Klar"⟩ ∧
    getWeatherInfo c = ⟨"🌡️", "Unbekannt"⟩ := by
  refine ⟨rfl, ?_⟩
  unfold getWeatherInfo
  rw [jsLookup_eq_none_of_not_mem c weatherMap h]
  rfl

/-- Closed instance of C8 at the unrecognized code 42. -/
theorem getWeatherInfo_clear_and_fallback_witness :
    42 ∉ weatherMap.map Prod.fst ∧
    getWeatherInfo 0 = ⟨"☀️", "Klar"⟩ ∧
    getWeatherInfo 42 = ⟨"🌡️", "Unbekannt"⟩ := by
  have h := getWeatherInfo_clear_and_fallback 42 (by decide)
  exact ⟨by decide, h.1, h.2⟩

/-- Claim C9: a present but unparseable credentials blob makes
`getSmartMeterCredentials` return null instead of throwing, and the
metering poller then behaves exactly as in the unconfigured state: static
placeholder, no relay request. -/
theorem credentials_parse_failure_unconfigured (s : String)
    (parse : String → Option Credentials) (fp ba : Bool)
    (hparse : parse s = none) :
    getSmartMeterCredentials (some s) parse = none ∧
    loadSmartMeterData (some s) parse fp ba = loadSmartMeterData none parse fp ba ∧
    loadSmartMeterData (some s) parse fp ba =
      .notConfigured "-- kWh" "Nicht konfiguriert" := by
  have h : getSmartMeterCredentials (some s) parse = none := by
    show (if s = "" then none else parse s) = none
    split
    · rfl
    · exact hparse
  refine ⟨h, ?_, ?_⟩
  · unfold loadSmartMeterData; rw [h]; rfl
  · unfold loadSmartMeterData; rw [h]

/-- Closed instance of C9: a parser that rejects the stored blob yields the
unconfigured placeholder. -/
theorem credentials_parse_failure_unconfigured_witness :
    getSmartMeterCredentials (some "not json") (fun _ => none) = none ∧
    loadSmartMeterData (some "not json") (fun _ => none) false true =
      .notConfigured "-- kWh" "Nicht konfiguriert" := by
  have h := credentials_parse_failure_unconfigured "not json" (fun _ => none) false true rfl
  exact ⟨h.1, h.2.2⟩
